import Mathlib

/-!
Verification development for the RestoBot availability state machine
(`src/main.py`): the owner-command interpreter, the availability record,
the prompt-context projector, the daily stats, and the dashboard write
endpoint, shallowly embedded in Lean, with the spec's testable properties
settled as theorems.

Python `datetime.date` values are embedded as year/month/day triples of
naturals; `str` values as Lean `String`; Python `dict`s (insertion
ordered) as association lists; Python `list.append` as `++ [x]`.
-/

namespace RestoBot

/-- Gregorian leap-year test, as implemented by Python's `datetime`. -/
def isLeap (y : Nat) : Bool :=
  (y % 4 == 0 && y % 100 != 0) || y % 400 == 0

/-- Length of month `m` of year `y`, as enforced by Python's `datetime`. -/
def daysInMonth (y m : Nat) : Nat :=
  if m == 2 then (if isLeap y then 29 else 28)
  else if m == 4 || m == 6 || m == 9 || m == 11 then 30
  else 31

/-- A Python `datetime.date` value: a year/month/day triple. -/
structure Date where
  year : Nat
  month : Nat
  day : Nat
  deriving Repr, DecidableEq

/-- The validity invariant Python's `datetime.date` constructor enforces. -/
def Date.Valid (d : Date) : Prop :=
  1 ≤ d.month ∧ d.month ≤ 12 ∧ 1 ≤ d.day ∧ d.day ≤ daysInMonth d.year d.month

instance (d : Date) : Decidable d.Valid := by
  unfold Date.Valid; exact inferInstance

/-- Python `date` order (`<=`): lexicographic on (year, month, day). -/
def dateLE (a b : Date) : Prop :=
  a.year < b.year ∨ (a.year = b.year ∧
    (a.month < b.month ∨ (a.month = b.month ∧ a.day ≤ b.day)))

/-- Python `date` strict order (`<`): lexicographic on (year, month, day). -/
def dateLT (a b : Date) : Prop :=
  a.year < b.year ∨ (a.year = b.year ∧
    (a.month < b.month ∨ (a.month = b.month ∧ a.day < b.day)))

instance (a b : Date) : Decidable (dateLE a b) := by
  unfold dateLE; exact inferInstance

instance (a b : Date) : Decidable (dateLT a b) := by
  unfold dateLT; exact inferInstance

/-- Python `d + timedelta(days=1)`: calendar successor. -/
def nextDay (d : Date) : Date :=
  if d.day < daysInMonth d.year d.month then ⟨d.year, d.month, d.day + 1⟩
  else if d.month < 12 then ⟨d.year, d.month + 1, 1⟩
  else ⟨d.year + 1, 1, 1⟩

/-- Injection of dates into naturals, strictly monotone on valid dates;
used only as a termination measure for the date-range loop. -/
def dateIdx (d : Date) : Nat := 372 * d.year + 31 * d.month + d.day

/-- Zero-padded two-digit decimal rendering (Python `%02d`). -/
def pad2 (n : Nat) : String :=
  if n < 10 then "0" ++ toString n else toString n

/-- Zero-padded four-digit decimal rendering (Python `%04d` / `%Y`). -/
def pad4 (n : Nat) : String :=
  if n < 10 then "000" ++ toString n
  else if n < 100 then "00" ++ toString n
  else if n < 1000 then "0" ++ toString n
  else toString n

/-- Python `date.isoformat()`: `YYYY-MM-DD`. -/
def Date.toIso (d : Date) : String :=
  pad4 d.year ++ "-" ++ pad2 d.month ++ "-" ++ pad2 d.day

/-- Python `date.strftime("%d/%m/%Y")`. -/
def Date.frDate (d : Date) : String :=
  pad2 d.day ++ "/" ++ pad2 d.month ++ "/" ++ pad4 d.year

/-- Python `date.strftime("%d/%m")`. -/
def Date.frShort (d : Date) : String :=
  pad2 d.day ++ "/" ++ pad2 d.month

/-- Python `str.upper()` restricted to the character repertoire of the
owner-command grammar: ASCII letters plus the accented letters appearing
in the French keywords. -/
def pyUpperChar (c : Char) : Char :=
  if c == 'é' then 'É' else if c == 'è' then 'È' else if c == 'ê' then 'Ê'
  else if c == 'ë' then 'Ë' else if c == 'à' then 'À' else if c == 'â' then 'Â'
  else if c == 'ç' then 'Ç' else if c == 'ô' then 'Ô' else if c == 'î' then 'Î'
  else if c == 'ï' then 'Ï' else if c == 'ù' then 'Ù' else if c == 'û' then 'Û'
  else c.toUpper

/-- Python `str.upper()` (see `pyUpperChar`). -/
def pyUpper (s : String) : String := ⟨s.data.map pyUpperChar⟩

/-- Python `str.strip()`: drop leading and trailing whitespace. -/
def pyStrip (s : String) : String :=
  ⟨((s.data.dropWhile Char.isWhitespace).reverse.dropWhile
      Char.isWhitespace).reverse⟩

/-- Python `str.startswith(p)`. -/
def strStarts (s p : String) : Bool := p.data.isPrefixOf s.data

/-- Scanner for Python `str.split(sep)` with a non-empty separator:
left-to-right, non-overlapping matches.  The fuel argument (instantiated
with the length of the scanned list, which bounds the number of steps)
makes the recursion structural. -/
def splitFuel (sep : List Char) : Nat → List Char → List Char → List (List Char)
  | _, [], acc => [acc.reverse]
  | 0, l, acc => [acc.reverse ++ l]
  | fuel + 1, c :: rest, acc =>
    if sep.isPrefixOf (c :: rest) && !sep.isEmpty then
      acc.reverse :: splitFuel sep fuel (List.drop sep.length (c :: rest)) []
    else splitFuel sep fuel rest (c :: acc)

/-- Python `s.split(sep)` (non-empty `sep`). -/
def pySplit (s sep : String) : List String :=
  (splitFuel sep.data s.data.length s.data []).map String.mk

/-- Scanner for Python `str.replace(pat, rep)` with a non-empty pattern:
left-to-right, non-overlapping.  Fuel as in `splitFuel`. -/
def replaceFuel (pat rep : List Char) : Nat → List Char → List Char
  | _, [] => []
  | 0, l => l
  | fuel + 1, c :: rest =>
    if pat.isPrefixOf (c :: rest) && !pat.isEmpty then
      rep ++ replaceFuel pat rep fuel (List.drop pat.length (c :: rest))
    else c :: replaceFuel pat rep fuel rest

/-- Python `s.replace(pat, rep)` (non-empty `pat`). -/
def pyReplace (s pat rep : String) : String :=
  ⟨replaceFuel pat.data rep.data s.data.length s.data⟩

/-- Python `sep.join(parts)`. -/
def pyJoin (sep : String) : List String → String
  | [] => ""
  | [x] => x
  | x :: rest => x ++ sep ++ pyJoin sep rest

/-- Python `s[n:]` (slicing by code points). -/
def pyDrop (s : String) (n : Nat) : String := ⟨s.data.drop n⟩

/-- Python `p in s` substring containment (for non-empty `p`). -/
def containsSub (s p : String) : Bool := (pySplit s p).length != 1

/-- Decimal digits to a natural number (Python `int(s)` on a validated
digit string). -/
def digitsToNat : List Char → Nat → Nat
  | [], acc => acc
  | c :: rest, acc => digitsToNat rest (acc * 10 + (c.toNat - 48))

/-- Python dict key lookup (`l[k]` guarded by `k in l`), on the
insertion-ordered association-list embedding of a dict. -/
def dictLookup {α : Type} : List (String × α) → String → Option α
  | [], _ => none
  | p :: rest, k => if p.1 == k then some p.2 else dictLookup rest k

/-- Python dict assignment `l[k] = v`: update in place if the key exists
(keeping its position), otherwise append at the end. -/
def dictInsert {α : Type} (l : List (String × α)) (k : String) (v : α) :
    List (String × α) :=
  if l.any (fun p => p.1 == k) then
    l.map (fun p => if p.1 == k then (k, v) else p)
  else l ++ [(k, v)]

/-- Python `datetime.strptime(s, "%d/%m")`: day then month, one or two
digits each, validated against the month lengths of `strptime`'s default
year 1900 (which is not a leap year). Returns `(day, month)` on success. -/
def parseDDMM (s : String) : Option (Nat × Nat) :=
  match pySplit s ("/") with
  | [ds, ms] =>
    if 1 ≤ ds.data.length && ds.data.length ≤ 2 && ds.data.all Char.isDigit &&
       1 ≤ ms.data.length && ms.data.length ≤ 2 && ms.data.all Char.isDigit then
      let d := digitsToNat ds.data 0
      let m := digitsToNat ms.data 0
      if 1 ≤ m && m ≤ 12 && 1 ≤ d && d ≤ daysInMonth 1900 m then
        some (d, m)
      else none
    else none
  | _ => none

theorem daysInMonth_ge (y m : Nat) : 28 ≤ daysInMonth y m := by
  unfold daysInMonth; split_ifs <;> omega

theorem daysInMonth_le (y m : Nat) : daysInMonth y m ≤ 31 := by
  unfold daysInMonth; split_ifs <;> omega

theorem nextDay_valid {d : Date} (h : d.Valid) : (nextDay d).Valid := by
  obtain ⟨y, m, dd⟩ := d
  have g1 := daysInMonth_ge y (m + 1)
  have g2 := daysInMonth_ge (y + 1) 1
  have g3 := daysInMonth_le y m
  simp only [Date.Valid, nextDay] at *
  split_ifs with hA hB <;> simp_all <;> omega

theorem dateIdx_lt_nextDay {d : Date} (h : d.Valid) :
    dateIdx d < dateIdx (nextDay d) := by
  obtain ⟨y, m, dd⟩ := d
  obtain ⟨h1, h2, h3, h4⟩ := h
  have e1 : daysInMonth y m ≤ 31 := daysInMonth_le y m
  simp only [nextDay, dateIdx]
  split_ifs with hA hB <;> simp at * <;> omega

theorem dateIdx_mono {a b : Date} (ha : a.Valid) (hb : b.Valid)
    (h : dateLE a b) : dateIdx a ≤ dateIdx b := by
  obtain ⟨y1, m1, d1⟩ := a
  obtain ⟨y2, m2, d2⟩ := b
  have e1 : daysInMonth y1 m1 ≤ 31 := daysInMonth_le y1 m1
  have e2 : daysInMonth y2 m2 ≤ 31 := daysInMonth_le y2 m2
  simp only [Date.Valid, dateLE, dateIdx] at *
  omega

theorem dateLE_refl (a : Date) : dateLE a a := by
  simp [dateLE]

theorem dateLE_trans {a b c : Date} (h1 : dateLE a b) (h2 : dateLE b c) :
    dateLE a c := by
  obtain ⟨y1, m1, d1⟩ := a
  obtain ⟨y2, m2, d2⟩ := b
  obtain ⟨y3, m3, d3⟩ := c
  simp only [dateLE] at *
  omega

theorem dateLE_iff {a b : Date} : dateLE a b ↔ dateLT a b ∨ a = b := by
  obtain ⟨y1, m1, d1⟩ := a
  obtain ⟨y2, m2, d2⟩ := b
  simp only [dateLE, dateLT, Date.mk.injEq]
  omega

theorem dateLT_nextDay (d : Date) : dateLT d (nextDay d) := by
  obtain ⟨y, m, dd⟩ := d
  simp only [nextDay, dateLT]
  split_ifs <;> simp

theorem dateLE_nextDay (d : Date) : dateLE d (nextDay d) := by
  rw [dateLE_iff]; exact Or.inl (dateLT_nextDay d)

theorem dateLT_of_lt_of_le {a b c : Date} (h1 : dateLT a b)
    (h2 : dateLE b c) : dateLT a c := by
  obtain ⟨y1, m1, d1⟩ := a
  obtain ⟨y2, m2, d2⟩ := b
  obtain ⟨y3, m3, d3⟩ := c
  simp only [dateLE, dateLT] at *
  omega

theorem nextDay_le_of_lt {c d : Date} (hc : c.Valid) (hd : d.Valid)
    (h : dateLT c d) : dateLE (nextDay c) d := by
  obtain ⟨y1, m1, d1⟩ := c
  obtain ⟨y2, m2, d2⟩ := d
  obtain ⟨c1, c2, c3, c4⟩ := hc
  obtain ⟨b1, b2, b3, b4⟩ := hd
  simp only [dateLT] at h
  rcases h with hy | ⟨rfl, hm | ⟨rfl, hdd⟩⟩ <;>
    · simp only [nextDay]
      split_ifs with hA hB <;> simp only [dateLE] <;> simp at * <;> omega

/-- The closed-range loop of `handle_owner_command` (`while current <= end:`
append `current`; `current += timedelta(days=1)`), collecting the visited
days in order. Validity of the bounds (guaranteed by `parseDDMM` at the
call site) is carried to justify termination of the source's loop. -/
def rangeDaysAux (e : Date) (he : e.Valid) (c : Date) (hc : c.Valid) :
    List Date :=
  if h : dateLE c e then
    c :: rangeDaysAux e he (nextDay c) (nextDay_valid hc)
  else []
termination_by dateIdx e + 1 - dateIdx c
decreasing_by
  have h1 := dateIdx_lt_nextDay hc
  have h2 := dateIdx_mono hc he h
  omega

/-- Totality wrapper for `rangeDaysAux`: both bounds produced by
`parseDDMM` are always valid, so the `else` branch is never taken by the
command handler. -/
def rangeDays (s e : Date) : List Date :=
  if h : s.Valid ∧ e.Valid then rangeDaysAux e h.2 s h.1 else []

/-- The per-restaurant availability record (`restaurant_status[pid]`):
`closed_dates` is a Python list (append, duplicates possible), `full_dates`
an insertion-ordered dict from ISO date to period label. -/
structure RestaurantStatus where
  status : String
  message : String
  closed_dates : List String
  full_dates : List (String × String)
  temp_message : String
  updated_at : String
  deriving Repr, DecidableEq

/-- The per-restaurant daily counters (`stats[pid]`). -/
structure Stats where
  messages_today : Nat
  bookings_today : Nat
  languages : List (String × Nat)
  last_reset : String
  deriving Repr, DecidableEq

/-- The static help text returned by the `AIDE` command. -/
def OWNER_COMMANDS_HELP : String :=
  "🤖 *Commandes RestoBot :*\n\n📊 *STATUS* — Voir le statut actuel\n📈 *STATS* — Statistiques du jour\n\n🔴 *COMPLET CE SOIR* — Marquer complet ce soir\n🔴 *COMPLET MIDI* — Marquer complet ce midi\n🔴 *COMPLET* [date] — Marquer complet (ex: COMPLET 28/02)\n🟡 *FERMÉ AUJOURD\x27HUI* — Fermeture exceptionnelle aujourd\x27hui\n🟡 *FERMÉ* [date] — Fermeture exceptionnelle (ex: FERMÉ 01/03)\n🟡 *FERMÉ DU* [date] *AU* [date] — Fermeture période\n🟢 *OUVERT* — Retour à la normale\n\n💬 *MESSAGE* [texte] — Ajouter un message temporaire pour les clients\n💬 *MESSAGE OFF* — Supprimer le message temporaire\n\n❓ *AIDE* — Afficher cette aide"

/-- The `STATUS` query reply (lines 151-166 of `main.py`). -/
def statusReply (status : RestaurantStatus) : String :=
  let s := status.status
  let label :=
    if s == "open" then "🟢 Ouvert"
    else if s == "full_tonight" then "🔴 Complet ce soir"
    else if s == "full_lunch" then "🔴 Complet ce midi"
    else if s == "closed_today" then "🟡 Fermé aujourd\x27hui"
    else s
  let t1 := "📊 *Statut actuel :* " ++ label ++ "\n"
  let t2 :=
    if status.temp_message != "" then
      t1 ++ "💬 Message actif : \"" ++ status.temp_message ++ "\"\n"
    else t1
  let t3 :=
    if status.closed_dates != [] then
      t2 ++ "📅 Fermetures prévues : " ++
        pyJoin (", ") status.closed_dates ++ "\n"
    else t2
  if status.full_dates != [] then
    t3 ++ "📅 Complet : " ++
      pyJoin (", ")
        (status.full_dates.map (fun p => p.1 ++ " (" ++ p.2 ++ ")")) ++ "\n"
  else t3

/-- The `STATS` query reply (lines 176-182 of `main.py`), rendered from
the (possibly just reset) stats record and the active-conversation count. -/
def statsReply (st : Stats) (convCount : Nat) : String :=
  "📈 *Statistiques du jour :*\n\n💬 Messages traités : " ++
    toString st.messages_today ++
  "\n🍽️ Réservations : " ++ toString st.bookings_today ++
  "\n🌍 Langues : " ++
    pyJoin (", ")
      (st.languages.map (fun p => p.1 ++ ": " ++ toString p.2)) ++
  "\n👥 Conversations actives : " ++ toString convCount

/-- The `COMPLET <date>` branch of `handle_owner_command` (lines 198-207),
applied to the already extracted date token. -/
def completDateBranch (status : RestaurantStatus) (st : Stats) (today : Date)
    (now : String) (date_str : String) :
    RestaurantStatus × Stats × Option String :=
  match parseDDMM date_str with
  | some dm =>
    let d : Date := ⟨today.year, dm.2, dm.1⟩
    ({ status with
       full_dates := dictInsert status.full_dates d.toIso ("journée"),
       updated_at := now }, st,
     some ("🔴 Noté : complet le " ++ d.frDate ++ "."))
  | none =>
    (status, st, some ("❌ Format de date non reconnu. Utilisez : COMPLET 28/02"))

/-- The `FERMÉ <date>` / `FERMÉ DU <date> AU <date>` branch of
`handle_owner_command` (lines 217-240), applied to the already extracted
remainder after the `FERMÉ `/`FERME ` keyword. -/
def fermeDatesBranch (status : RestaurantStatus) (st : Stats) (today : Date)
    (now : String) (date_str : String) :
    RestaurantStatus × Stats × Option String :=
  if containsSub date_str ("AU") then
    match parseDDMM (pyStrip (pyReplace
            ((pySplit date_str ("AU")).getD 0 ("")) ("DU") (""))),
          parseDDMM (pyStrip ((pySplit date_str ("AU")).getD 1 (""))) with
    | some sdm, some edm =>
      let start : Date := ⟨today.year, sdm.2, sdm.1⟩
      let stop : Date := ⟨today.year, edm.2, edm.1⟩
      ({ status with
         closed_dates :=
           status.closed_dates ++ (rangeDays start stop).map Date.toIso,
         updated_at := now }, st,
       some ("🟡 Fermeture enregistrée du " ++ start.frShort ++ " au " ++
         stop.frShort ++ "."))
    | _, _ =>
      (status, st, some ("❌ Format non reconnu. Utilisez : FERMÉ DU 01/03 AU 15/03"))
  else
    match parseDDMM date_str with
    | some dm =>
      let d : Date := ⟨today.year, dm.2, dm.1⟩
      ({ status with
         closed_dates := status.closed_dates ++ [d.toIso],
         updated_at := now }, st,
       some ("🟡 Fermeture enregistrée le " ++ d.frDate ++ "."))
    | none =>
      (status, st, some ("❌ Format non reconnu. Utilisez : FERMÉ 01/03"))

/-- `handle_owner_command` (lines 140-261 of `main.py`): parses the raw
owner message and applies the directive to the availability record and
(for `STATS`) the stats record.  `convCount` stands for the
active-conversation count read from the conversation registry, `now` for
`datetime.utcnow().isoformat()`.  A `none` reply means "not a command". -/
def handle_owner_command (status : RestaurantStatus) (st : Stats)
    (convCount : Nat) (today : Date) (now : String) (message : String) :
    RestaurantStatus × Stats × Option String :=
  let msg := pyUpper (pyStrip message)
  if msg == "AIDE" || msg == "HELP" || msg == "?" then
    (status, st, some OWNER_COMMANDS_HELP)
  else if msg == "STATUS" then
    (status, st, some (statusReply status))
  else if msg == "STATS" then
    let st2 :=
      if st.last_reset != today.toIso then
        { st with
          messages_today := 0,
          bookings_today := 0,
          last_reset := today.toIso }
      else st
    (status, st2, some (statsReply st2 convCount))
  else if msg == "COMPLET CE SOIR" || msg == "COMPLET SOIR" || msg == "FULL TONIGHT" then
    ({ status with
       status := "full_tonight",
       full_dates := dictInsert status.full_dates today.toIso ("soir"),
       updated_at := now }, st,
     some ("🔴 C\x27est noté ! L\x27agent informe les clients que vous êtes complet ce soir. Envoyez *OUVERT* pour revenir à la normale."))
  else if msg == "COMPLET MIDI" || msg == "COMPLET CE MIDI" || msg == "FULL LUNCH" then
    ({ status with
       status := "full_lunch",
       full_dates := dictInsert status.full_dates today.toIso ("midi"),
       updated_at := now }, st,
     some ("🔴 C\x27est noté ! L\x27agent informe les clients que vous êtes complet ce midi. Envoyez *OUVERT* pour revenir à la normale."))
  else if strStarts msg ("COMPLET ") then
    completDateBranch status st today now (pyStrip (pyReplace msg ("COMPLET ") ("")))
  else if msg == "FERMÉ AUJOURD\x27HUI" || msg == "FERME AUJOURD\x27HUI" ||
      msg == "FERMÉ" || msg == "FERME" || msg == "CLOSED TODAY" then
    ({ status with
       status := "closed_today",
       closed_dates := status.closed_dates ++ [today.toIso],
       updated_at := now }, st,
     some ("🟡 Fermeture exceptionnelle enregistrée pour aujourd\x27hui. L\x27agent prévient les clients. Envoyez *OUVERT* demain."))
  else if strStarts msg ("FERMÉ ") || strStarts msg ("FERME ") then
    fermeDatesBranch status st today now
      (pyStrip (pyReplace (pyReplace msg ("FERMÉ ") ("")) ("FERME ") ("")))
  else if msg == "OUVERT" || msg == "OPEN" || msg == "NORMAL" then
    ({ status with status := "open", updated_at := now }, st,
     some ("🟢 Statut remis à *ouvert*. L\x27agent reprend normalement."))
  else if strStarts msg ("MESSAGE ") then
    let text := pyStrip (pyDrop message 8)
    if pyUpper text == "OFF" then
      ({ status with temp_message := "", updated_at := now }, st,
       some ("💬 Message temporaire supprimé."))
    else
      ({ status with temp_message := text, updated_at := now }, st,
       some ("💬 Message temporaire activé :\n\"" ++ text ++
         "\"\n\nLes clients verront ce message. Envoyez *MESSAGE OFF* pour le retirer."))
  else
    (status, st, none)

/-- Constraint message set when `status == "full_tonight"` (line 288). -/
def FULL_TONIGHT_CTX : String :=
  "\n⚠️ IMPORTANT : Le restaurant est COMPLET CE SOIR. Informe poliment le client et propose de réserver pour un autre soir."

/-- Constraint message set when `status == "full_lunch"` (line 290). -/
def FULL_LUNCH_CTX : String :=
  "\n⚠️ IMPORTANT : Le restaurant est COMPLET CE MIDI. Informe poliment le client et propose de réserver pour un autre créneau."

/-- Constraint message set when `status == "closed_today"` (line 292). -/
def CLOSED_TODAY_STATUS_CTX : String :=
  "\n⚠️ IMPORTANT : Le restaurant est FERMÉ AUJOURD\x27HUI (fermeture exceptionnelle). Informe poliment le client et propose de réserver pour un autre jour."

/-- Constraint message overwriting when today is in `closed_dates` (line 295). -/
def CLOSED_TODAY_DATE_CTX : String :=
  "\n⚠️ IMPORTANT : Le restaurant est FERMÉ AUJOURD\x27HUI. Informe poliment et propose un autre jour."

/-- Constraint message overwriting when today is a key of `full_dates`
(line 299), parameterized by the stored period label. -/
def fullTodayCtx (period : String) : String :=
  "\n⚠️ IMPORTANT : Le restaurant est COMPLET (" ++ period ++
    ") aujourd\x27hui. Informe poliment et propose un autre créneau."

/-- Steps 1-3 of the projector (lines 284-299 of `build_system_prompt`):
the last-write-wins cascade assigning `status_context` before the
future-closures note is appended. -/
def statusOverwrite (status : RestaurantStatus) (today_str : String) : String :=
  let s1 :=
    if status.status == "full_tonight" then FULL_TONIGHT_CTX
    else if status.status == "full_lunch" then FULL_LUNCH_CTX
    else if status.status == "closed_today" then CLOSED_TODAY_STATUS_CTX
    else ""
  let s2 := if status.closed_dates.contains today_str then CLOSED_TODAY_DATE_CTX else s1
  match dictLookup status.full_dates today_str with
  | some period => fullTodayCtx period
  | none => s2

/-- Step 4 of the projector (lines 302-304): the appended note listing the
closed dates strictly after today (Python string comparison on ISO dates). -/
def futureNote (status : RestaurantStatus) (today_str : String) : String :=
  let future_closed := status.closed_dates.filter (fun d => decide (today_str < d))
  if future_closed != [] then
    "\nFermetures prévues : " ++ pyJoin (", ") future_closed ++
      ". Si le client veut réserver à ces dates, informe-le que c\x27est fermé."
  else ""

/-- The final value of the `status_context` variable of
`build_system_prompt`. -/
def statusContext (status : RestaurantStatus) (today_str : String) : String :=
  statusOverwrite status today_str ++ futureNote status today_str

/-- The temp-message directive (line 309). -/
def tempDirective (m : String) : String :=
  "\n📢 MESSAGE DU RESTAURANT : " ++ m ++
    ". Mentionne cette info si c\x27est pertinent pour le client."

/-- The `temp_msg` variable of `build_system_prompt` (lines 307-309). -/
def tempBlock (status : RestaurantStatus) : String :=
  if status.temp_message != "" then tempDirective status.temp_message else ""

/-- The availability constraint block that `build_system_prompt`
interpolates into the system prompt: the fragment rendered by the
consecutive template lines holding `status_context` and `temp_msg`. -/
def constraintBlock (status : RestaurantStatus) (today_str : String) : String :=
  statusContext status today_str ++ "\n" ++ tempBlock status

/-- `track_stats` (lines 453-467 of `main.py`): lazy daily reset followed
by the increments for one processed message. -/
def track_stats (st : Stats) (today : Date) (is_booking : Bool)
    (language : String) : Stats :=
  let st1 :=
    if st.last_reset != today.toIso then
      { st with
        messages_today := 0,
        bookings_today := 0,
        languages := [],
        last_reset := today.toIso }
    else st
  let st2 := { st1 with messages_today := st1.messages_today + 1 }
  let st3 :=
    if is_booking then { st2 with bookings_today := st2.bookings_today + 1 }
    else st2
  { st3 with
    languages := dictInsert st3.languages language
      ((dictLookup st3.languages language).getD 0 + 1) }

/-- The dashboard `POST /api/status` write (`update_status`, lines
1034-1048 of `main.py`): `newStatus` is `data.get("status")` from the
request body (`none` when the key is absent). -/
def update_status (status : RestaurantStatus) (today : Date) (now : String)
    (newStatus : Option String) : RestaurantStatus :=
  let s1 := { status with status := newStatus.getD ("open"), updated_at := now }
  if newStatus == some ("closed_today") then
    { s1 with closed_dates := s1.closed_dates ++ [today.toIso] }
  else s1

/-! Helper lemmas. -/

theorem str_empty_append (s : String) : "" ++ s = s := by
  obtain ⟨l⟩ := s
  show String.mk ([] ++ l) = String.mk l
  rw [List.nil_append]

theorem dateLT_irrefl (a : Date) : ¬ dateLT a a := by
  obtain ⟨y, m, d⟩ := a
  simp [dateLT]

theorem dictLookup_update {α : Type} (l : List (String × α)) (k : String)
    (v : α) (h : l.any (fun p => p.1 == k) = true) :
    dictLookup (l.map (fun p => if p.1 == k then (k, v) else p)) k = some v := by
  induction l with
  | nil => simp at h
  | cons p rest ih =>
    by_cases hp : p.1 = k
    · simp [dictLookup, hp]
    · have hbeq : (p.1 == k) = false := by simpa using hp
      simp only [List.any_cons, hbeq, Bool.false_or] at h
      simp [dictLookup, hbeq]
      simpa using ih h

theorem dictLookup_append {α : Type} (l : List (String × α)) (k : String)
    (v : α) (h : l.any (fun p => p.1 == k) = false) :
    dictLookup (l ++ [(k, v)]) k = some v := by
  induction l with
  | nil => simp [dictLookup]
  | cons p rest ih =>
    simp only [List.any_cons, Bool.or_eq_false_iff] at h
    simp [dictLookup, h.1]
    exact ih h.2

theorem dictLookup_dictInsert {α : Type} (l : List (String × α))
    (k : String) (v : α) : dictLookup (dictInsert l k v) k = some v := by
  unfold dictInsert
  split_ifs with h
  · exact dictLookup_update l k v h
  · rw [Bool.not_eq_true] at h
    exact dictLookup_append l k v h

theorem strStarts_ne {s t p : String} (h : strStarts s p = true)
    (ht : strStarts t p = false) : s ≠ t := by
  intro e; rw [e, ht] at h; cases h

theorem isPre_excl {l p1 p2 : List Char} {c1 c2 : Char} (hne : c1 ≠ c2)
    (h : List.isPrefixOf (c1 :: p1) l = true) :
    List.isPrefixOf (c2 :: p2) l = false := by
  cases l with
  | nil => simp [List.isPrefixOf] at h
  | cons a t =>
    simp only [List.isPrefixOf, Bool.and_eq_true, beq_iff_eq] at h
    simp only [List.isPrefixOf, Bool.and_eq_false_iff, beq_eq_false_iff_ne]
    exact Or.inl (h.1 ▸ Ne.symm hne)

theorem ferme1_not_complet {s : String}
    (h : strStarts s ("FERMÉ ") = true) :
    strStarts s ("COMPLET ") = false := by
  have e1 : ("FERMÉ ").data = ['F', 'E', 'R', 'M', 'É', ' '] := rfl
  have e2 : ("COMPLET ").data = ['C', 'O', 'M', 'P', 'L', 'E', 'T', ' '] := rfl
  unfold strStarts at *
  rw [e1] at h; rw [e2]
  exact isPre_excl (by decide) h

theorem ferme2_not_complet {s : String}
    (h : strStarts s ("FERME ") = true) :
    strStarts s ("COMPLET ") = false := by
  have e1 : ("FERME ").data = ['F', 'E', 'R', 'M', 'E', ' '] := rfl
  have e2 : ("COMPLET ").data = ['C', 'O', 'M', 'P', 'L', 'E', 'T', ' '] := rfl
  unfold strStarts at *
  rw [e1] at h; rw [e2]
  exact isPre_excl (by decide) h

theorem daysInMonth_1900_le (y m : Nat) : daysInMonth 1900 m ≤ daysInMonth y m := by
  have h19 : isLeap 1900 = false := by decide
  unfold daysInMonth
  rw [h19]
  split_ifs <;> simp_all

theorem parseDDMM_valid {str : String} {dm : Nat × Nat}
    (h : parseDDMM str = some dm) (y : Nat) : Date.Valid ⟨y, dm.2, dm.1⟩ := by
  obtain ⟨D, M⟩ := dm
  unfold parseDDMM at h
  split at h <;> try simp at h
  obtain ⟨-, ⟨⟨⟨hm1, hm2⟩, hd1⟩, hd2⟩, hD, hM⟩ := h
  rw [hD] at hd1 hd2
  rw [hM] at hm1 hm2 hd2
  have hle := daysInMonth_1900_le y M
  simp only [Date.Valid]
  omega

theorem rangeDaysAux_mem (e : Date) (he : e.Valid) :
    ∀ (n : Nat) (c : Date) (hc : c.Valid), dateIdx e + 1 - dateIdx c ≤ n →
    ∀ d : Date, d ∈ rangeDaysAux e he c hc ↔
      (d.Valid ∧ dateLE c d ∧ dateLE d e) := by
  intro n
  induction n with
  | zero =>
    intro c hc hn d
    have hnotle : ¬ dateLE c e := by
      intro hle
      have := dateIdx_mono hc he hle
      omega
    rw [rangeDaysAux, dif_neg hnotle]
    simp only [List.not_mem_nil, false_iff]
    rintro ⟨hd, h1, h2⟩
    exact hnotle (dateLE_trans h1 h2)
  | succ n ih =>
    intro c hc hn d
    rw [rangeDaysAux]
    split_ifs with hle
    · have hmeas : dateIdx e + 1 - dateIdx (nextDay c) ≤ n := by
        have g1 := dateIdx_lt_nextDay hc
        have g2 := dateIdx_mono hc he hle
        omega
      rw [List.mem_cons, ih (nextDay c) (nextDay_valid hc) hmeas d]
      constructor
      · rintro (rfl | ⟨hd, h1, h2⟩)
        · exact ⟨hc, dateLE_refl d, hle⟩
        · exact ⟨hd, dateLE_trans (dateLE_nextDay c) h1, h2⟩
      · rintro ⟨hd, h1, h2⟩
        rcases dateLE_iff.mp h1 with hlt | rfl
        · exact Or.inr ⟨hd, nextDay_le_of_lt hc hd hlt, h2⟩
        · exact Or.inl rfl
    · simp only [List.not_mem_nil, false_iff]
      rintro ⟨hd, h1, h2⟩
      exact hle (dateLE_trans h1 h2)

theorem rangeDaysAux_pairwise (e : Date) (he : e.Valid) :
    ∀ (n : Nat) (c : Date) (hc : c.Valid), dateIdx e + 1 - dateIdx c ≤ n →
    (rangeDaysAux e he c hc).Pairwise dateLT := by
  intro n
  induction n with
  | zero =>
    intro c hc hn
    have hnotle : ¬ dateLE c e := by
      intro hle
      have := dateIdx_mono hc he hle
      omega
    rw [rangeDaysAux, dif_neg hnotle]
    exact List.Pairwise.nil
  | succ n ih =>
    intro c hc hn
    rw [rangeDaysAux]
    split_ifs with hle
    · have hmeas : dateIdx e + 1 - dateIdx (nextDay c) ≤ n := by
        have g1 := dateIdx_lt_nextDay hc
        have g2 := dateIdx_mono hc he hle
        omega
      refine List.Pairwise.cons ?_ (ih (nextDay c) (nextDay_valid hc) hmeas)
      intro d hd
      rw [rangeDaysAux_mem e he n (nextDay c) (nextDay_valid hc) hmeas d] at hd
      exact dateLT_of_lt_of_le (dateLT_nextDay c) hd.2.1
    · exact List.Pairwise.nil

/-- The dates appended by the closed-range loop are exactly the valid
calendar dates between the two bounds, inclusive. -/
theorem rangeDays_mem {s e : Date} (hs : s.Valid) (he : e.Valid) (d : Date) :
    d ∈ rangeDays s e ↔ (d.Valid ∧ dateLE s d ∧ dateLE d e) := by
  unfold rangeDays
  rw [dif_pos ⟨hs, he⟩]
  exact rangeDaysAux_mem e he (dateIdx e + 1 - dateIdx s) s hs le_rfl d

theorem rangeDays_pairwise (s e : Date) : (rangeDays s e).Pairwise dateLT := by
  unfold rangeDays
  split_ifs with h
  · exact rangeDaysAux_pairwise e h.2 (dateIdx e + 1 - dateIdx s) s h.1 le_rfl
  · exact List.Pairwise.nil

/-- No day is appended twice by a single closed-range command. -/
theorem rangeDays_nodup (s e : Date) : (rangeDays s e).Nodup :=
  (rangeDays_pairwise s e).imp (fun hlt => by
    rintro rfl
    exact dateLT_irrefl _ hlt)

/-- When start > end the loop body never runs. -/
theorem rangeDays_empty {s e : Date} (h : ¬ dateLE s e) : rangeDays s e = [] := by
  unfold rangeDays
  split_ifs with hv
  · rw [rangeDaysAux, dif_neg h]
  · rfl

theorem rangeDaysAux_cons {e c : Date} (he : e.Valid) (hc : c.Valid)
    (h : dateLE c e) :
    rangeDaysAux e he c hc =
      c :: rangeDaysAux e he (nextDay c) (nextDay_valid hc) := by
  rw [rangeDaysAux, dif_pos h]

theorem rangeDaysAux_congr {e : Date} (he : e.Valid) {c c' : Date}
    (h : c = c') (hc : c.Valid) (hc' : c'.Valid) :
    rangeDaysAux e he c hc = rangeDaysAux e he c' hc' := by
  subst h; rfl

theorem daysInMonth_march (Y : Nat) : daysInMonth Y 3 = 31 := by
  unfold daysInMonth
  norm_num

/-- Concrete evaluation of the closed-range loop for 01/03 .. 03/03 of an
arbitrary year. -/
theorem rangeDays_march (Y : Nat) :
    rangeDays ⟨Y, 3, 1⟩ ⟨Y, 3, 3⟩ = [⟨Y, 3, 1⟩, ⟨Y, 3, 2⟩, ⟨Y, 3, 3⟩] := by
  have hd := daysInMonth_march Y
  have hv1 : Date.Valid ⟨Y, 3, 1⟩ := by simp [Date.Valid, hd]
  have hv2 : Date.Valid ⟨Y, 3, 2⟩ := by simp [Date.Valid, hd]
  have hv3 : Date.Valid ⟨Y, 3, 3⟩ := by simp [Date.Valid, hd]
  have hv4 : Date.Valid ⟨Y, 3, 4⟩ := by simp [Date.Valid, hd]
  have hn1 : nextDay ⟨Y, 3, 1⟩ = ⟨Y, 3, 2⟩ := by simp [nextDay, hd]
  have hn2 : nextDay ⟨Y, 3, 2⟩ = ⟨Y, 3, 3⟩ := by simp [nextDay, hd]
  have hn3 : nextDay ⟨Y, 3, 3⟩ = ⟨Y, 3, 4⟩ := by simp [nextDay, hd]
  have hle1 : dateLE ⟨Y, 3, 1⟩ ⟨Y, 3, 3⟩ := by simp [dateLE]
  have hle2 : dateLE ⟨Y, 3, 2⟩ ⟨Y, 3, 3⟩ := by simp [dateLE]
  have hle3 : dateLE ⟨Y, 3, 3⟩ ⟨Y, 3, 3⟩ := dateLE_refl _
  have hle4 : ¬ dateLE ⟨Y, 3, 4⟩ ⟨Y, 3, 3⟩ := by simp [dateLE]
  unfold rangeDays
  rw [dif_pos ⟨hv1, hv3⟩]
  rw [rangeDaysAux_cons hv3 hv1 hle1,
    rangeDaysAux_congr hv3 hn1 (nextDay_valid hv1) hv2]
  rw [rangeDaysAux_cons hv3 hv2 hle2,
    rangeDaysAux_congr hv3 hn2 (nextDay_valid hv2) hv3]
  rw [rangeDaysAux_cons hv3 hv3 hle3,
    rangeDaysAux_congr hv3 hn3 (nextDay_valid hv3) hv4]
  rw [rangeDaysAux, dif_neg hle4]

/-- Dispatch: a message whose canonical form starts with `COMPLET ` and is
none of the fixed full-status phrases reaches the `COMPLET <date>` branch. -/
theorem dispatch_complet_date (r : RestaurantStatus) (st : Stats)
    (conv : Nat) (today : Date) (now : String) (message : String)
    (h : strStarts (pyUpper (pyStrip message)) ("COMPLET ") = true)
    (h1 : pyUpper (pyStrip message) ≠ "COMPLET CE SOIR")
    (h2 : pyUpper (pyStrip message) ≠ "COMPLET SOIR")
    (h3 : pyUpper (pyStrip message) ≠ "COMPLET MIDI")
    (h4 : pyUpper (pyStrip message) ≠ "COMPLET CE MIDI") :
    handle_owner_command r st conv today now message =
      completDateBranch r st today now
        (pyStrip (pyReplace (pyUpper (pyStrip message)) ("COMPLET ") (""))) := by
  have bA : (pyUpper (pyStrip message) == "AIDE") = false := by
    simpa using strStarts_ne h (by decide)
  have bB : (pyUpper (pyStrip message) == "HELP") = false := by
    simpa using strStarts_ne h (by decide)
  have bC : (pyUpper (pyStrip message) == "?") = false := by
    simpa using strStarts_ne h (by decide)
  have bD : (pyUpper (pyStrip message) == "STATUS") = false := by
    simpa using strStarts_ne h (by decide)
  have bE : (pyUpper (pyStrip message) == "STATS") = false := by
    simpa using strStarts_ne h (by decide)
  have bF : (pyUpper (pyStrip message) == "FULL TONIGHT") = false := by
    simpa using strStarts_ne h (by decide)
  have bG : (pyUpper (pyStrip message) == "FULL LUNCH") = false := by
    simpa using strStarts_ne h (by decide)
  have b1 : (pyUpper (pyStrip message) == "COMPLET CE SOIR") = false := by
    simpa using h1
  have b2 : (pyUpper (pyStrip message) == "COMPLET SOIR") = false := by
    simpa using h2
  have b3 : (pyUpper (pyStrip message) == "COMPLET MIDI") = false := by
    simpa using h3
  have b4 : (pyUpper (pyStrip message) == "COMPLET CE MIDI") = false := by
    simpa using h4
  unfold handle_owner_command
  simp only [bA, bB, bC, bD, bE, bF, bG, b1, b2, b3, b4, h, Bool.or_false,
    Bool.false_or, Bool.or_self, if_false, if_true, Bool.false_eq_true,
    ite_false, ite_true]

/-- Dispatch: a message whose canonical form starts with `FERMÉ ` or
`FERME ` and is none of the fixed closed-today phrases reaches the
`FERMÉ <date>` / `FERMÉ DU .. AU ..` branch. -/
theorem dispatch_ferme_date (r : RestaurantStatus) (st : Stats)
    (conv : Nat) (today : Date) (now : String) (message : String)
    (h : strStarts (pyUpper (pyStrip message)) ("FERMÉ ") = true ∨
      strStarts (pyUpper (pyStrip message)) ("FERME ") = true)
    (h1 : pyUpper (pyStrip message) ≠ "FERMÉ AUJOURD\x27HUI")
    (h2 : pyUpper (pyStrip message) ≠ "FERME AUJOURD\x27HUI")
    (h3 : pyUpper (pyStrip message) ≠ "FERMÉ")
    (h4 : pyUpper (pyStrip message) ≠ "FERME")
    (h5 : pyUpper (pyStrip message) ≠ "CLOSED TODAY") :
    handle_owner_command r st conv today now message =
      fermeDatesBranch r st today now
        (pyStrip (pyReplace (pyReplace (pyUpper (pyStrip message))
          ("FERMÉ ") ("")) ("FERME ") (""))) := by
  have hne : ∀ t : String, strStarts t ("FERMÉ ") = false →
      strStarts t ("FERME ") = false → pyUpper (pyStrip message) ≠ t := by
    intro t ht1 ht2
    rcases h with h | h
    · exact strStarts_ne h ht1
    · exact strStarts_ne h ht2
  have bA : (pyUpper (pyStrip message) == "AIDE") = false := by
    simpa using hne _ (by decide) (by decide)
  have bB : (pyUpper (pyStrip message) == "HELP") = false := by
    simpa using hne _ (by decide) (by decide)
  have bC : (pyUpper (pyStrip message) == "?") = false := by
    simpa using hne _ (by decide) (by decide)
  have bD : (pyUpper (pyStrip message) == "STATUS") = false := by
    simpa using hne _ (by decide) (by decide)
  have bE : (pyUpper (pyStrip message) == "STATS") = false := by
    simpa using hne _ (by decide) (by decide)
  have bF : (pyUpper (pyStrip message) == "FULL TONIGHT") = false := by
    simpa using hne _ (by decide) (by decide)
  have bG : (pyUpper (pyStrip message) == "FULL LUNCH") = false := by
    simpa using hne _ (by decide) (by decide)
  have b1 : (pyUpper (pyStrip message) == "COMPLET CE SOIR") = false := by
    simpa using hne _ (by decide) (by decide)
  have b2 : (pyUpper (pyStrip message) == "COMPLET SOIR") = false := by
    simpa using hne _ (by decide) (by decide)
  have b3 : (pyUpper (pyStrip message) == "COMPLET MIDI") = false := by
    simpa using hne _ (by decide) (by decide)
  have b4 : (pyUpper (pyStrip message) == "COMPLET CE MIDI") = false := by
    simpa using hne _ (by decide) (by decide)
  have bCp : strStarts (pyUpper (pyStrip message)) ("COMPLET ") = false := by
    rcases h with h | h
    · exact ferme1_not_complet h
    · exact ferme2_not_complet h
  have c1 : (pyUpper (pyStrip message) == "FERMÉ AUJOURD\x27HUI") = false := by
    simpa using h1
  have c2 : (pyUpper (pyStrip message) == "FERME AUJOURD\x27HUI") = false := by
    simpa using h2
  have c3 : (pyUpper (pyStrip message) == "FERMÉ") = false := by
    simpa using h3
  have c4 : (pyUpper (pyStrip message) == "FERME") = false := by
    simpa using h4
  have c5 : (pyUpper (pyStrip message) == "CLOSED TODAY") = false := by
    simpa using h5
  have hor : (strStarts (pyUpper (pyStrip message)) ("FERMÉ ") ||
      strStarts (pyUpper (pyStrip message)) ("FERME ")) = true := by
    rcases h with h | h <;> simp [h]
  unfold handle_owner_command
  simp only [bA, bB, bC, bD, bE, bF, bG, b1, b2, b3, b4, bCp, c1, c2, c3, c4,
    c5, hor, Bool.or_false, Bool.false_or, Bool.or_self, if_false, if_true,
    Bool.false_eq_true, ite_false, ite_true]

/-- Sample availability record, as initialized by `load_sample_restaurant`. -/
def initStatus : RestaurantStatus :=
  ⟨"open", "", [], [], "", "2026-02-24T19:00:00"⟩

/-- Sample stats record. -/
def initStats : Stats := ⟨0, 0, [], "2026-02-24"⟩

/-! The claims. -/

/-- C1 Projector precedence: for an availability record with status
FullTonight or FullLunch and today present in `closedDates`, the overwrite
cascade of the projector yields the closed-today message (not the
full-tonight/full-lunch message), and when today is additionally a key of
`fullDates` the full-today message parameterized by the stored period
label overwrites again. -/
theorem claim1_projector_precedence (r : RestaurantStatus) (t : String)
    (hs : r.status = "full_tonight" ∨ r.status = "full_lunch")
    (hc : t ∈ r.closed_dates) :
    (dictLookup r.full_dates t = none →
      statusOverwrite r t = CLOSED_TODAY_DATE_CTX
      ∧ statusContext r t = CLOSED_TODAY_DATE_CTX ++ futureNote r t)
    ∧ (∀ p, dictLookup r.full_dates t = some p →
      statusOverwrite r t = fullTodayCtx p
      ∧ statusContext r t = fullTodayCtx p ++ futureNote r t)
    ∧ CLOSED_TODAY_DATE_CTX ≠ FULL_TONIGHT_CTX
    ∧ CLOSED_TODAY_DATE_CTX ≠ FULL_LUNCH_CTX := by
  have hc' : r.closed_dates.contains t = true := List.elem_eq_true_of_mem hc
  refine ⟨fun hnone => ⟨?_, ?_⟩, fun p hp => ⟨?_, ?_⟩, by decide, by decide⟩
  · simp [statusOverwrite, hc, hc', hnone]
  · simp [statusContext, statusOverwrite, hc, hc', hnone]
  · simp [statusOverwrite, hp]
  · simp [statusContext, statusOverwrite, hp]

/-- Witness for C1 at a concrete record. -/
theorem claim1_projector_precedence_witness :
    statusOverwrite ⟨"full_lunch", "", ["2026-02-24"], [], "", ""⟩
        ("2026-02-24") = CLOSED_TODAY_DATE_CTX :=
  ((claim1_projector_precedence _ _ (Or.inr rfl) (by simp)).1 (by rfl)).1

/-- C2 counterexample: the dashboard set-status write with `full_tonight`
does not insert `(today, "soir")` into `fullDates` (it stays empty on the
sample record), while the owner command `COMPLET CE SOIR` does — the two
entry points do not apply the same mutation. -/
theorem claim2_counterexample :
    (update_status initStatus ⟨2026, 2, 24⟩ "t1" (some ("full_tonight"))).full_dates = []
    ∧ (handle_owner_command initStatus initStats 0 ⟨2026, 2, 24⟩ "t1"
        ("COMPLET CE SOIR")).1.full_dates = [("2026-02-24", "soir")] := by
  exact ⟨rfl, rfl⟩

/-- C2 amended: the dashboard set-status write mirrors the owner command
only for ClosedToday (same record mutation, including the append to
`closedDates`); for FullTonight and FullLunch it sets only `status` and
`updatedAt`, leaving `fullDates` (and everything else) unchanged, unlike
the owner commands. -/
theorem claim2_amended (r : RestaurantStatus) (st : Stats) (conv : Nat)
    (today : Date) (now : String) :
    update_status r today now (some ("closed_today"))
        = (handle_owner_command r st conv today now ("FERMÉ AUJOURD\x27HUI")).1
    ∧ update_status r today now (some ("full_tonight"))
        = { r with status := "full_tonight", updated_at := now }
    ∧ update_status r today now (some ("full_lunch"))
        = { r with status := "full_lunch", updated_at := now } := by
  exact ⟨rfl, rfl, rfl⟩

/-- C3 Frame property of SetOpen: `OUVERT`/`OPEN`/`NORMAL` sets status to
open and stamps `updatedAt`, leaving `closedDates`, `fullDates` and
`tempMessage` unchanged; in particular after SetClosedToday followed by
SetOpen, today is still in `closedDates`. -/
theorem claim3_setopen_frame (r : RestaurantStatus) (st : Stats) (conv : Nat)
    (today : Date) (now now2 : String) (m : String)
    (hm : m = "OUVERT" ∨ m = "OPEN" ∨ m = "NORMAL") :
    (handle_owner_command r st conv today now m).1
        = { r with status := "open", updated_at := now }
    ∧ today.toIso ∈ ((handle_owner_command
        (handle_owner_command r st conv today now ("FERMÉ AUJOURD\x27HUI")).1
        st conv today now2 m).1).closed_dates := by
  rcases hm with rfl | rfl | rfl <;>
    exact ⟨rfl, by
      show today.toIso ∈ r.closed_dates ++ [today.toIso]
      simp⟩

/-- Witness for C3 at a concrete input. -/
theorem claim3_setopen_frame_witness :
    (handle_owner_command initStatus initStats 0 ⟨2026, 2, 24⟩ "t1"
        ("OUVERT")).1
      = { initStatus with status := "open", updated_at := "t1" } :=
  (claim3_setopen_frame initStatus initStats 0 ⟨2026, 2, 24⟩ "t1" "t2"
    "OUVERT" (Or.inl rfl)).1

/-- C6 Non-idempotence of closures: applying SetClosedToday twice appends
today to `closedDates` twice — duplicate entries, one appended entry per
application, no deduplication. -/
theorem claim6_closed_not_idempotent (r : RestaurantStatus) (st : Stats)
    (conv : Nat) (today : Date) (now now2 : String) :
    ((handle_owner_command r st conv today now
        ("FERMÉ AUJOURD\x27HUI")).1).closed_dates
      = r.closed_dates ++ [today.toIso]
    ∧ ((handle_owner_command
        (handle_owner_command r st conv today now ("FERMÉ AUJOURD\x27HUI")).1
        st conv today now2 ("FERMÉ AUJOURD\x27HUI")).1).closed_dates
      = r.closed_dates ++ [today.toIso, today.toIso]
    ∧ ((handle_owner_command
        (handle_owner_command r st conv today now ("FERMÉ AUJOURD\x27HUI")).1
        st conv today now2 ("FERMÉ AUJOURD\x27HUI")).1).closed_dates.length
      = r.closed_dates.length + 2 := by
  refine ⟨rfl, ?_, ?_⟩
  · show (r.closed_dates ++ [today.toIso]) ++ [today.toIso] = _
    simp
  · show ((r.closed_dates ++ [today.toIso]) ++ [today.toIso]).length = _
    simp

/-- C10 Leap-day edge case: `COMPLET 29/02` and `FERMÉ 29/02` are rejected
with the corrective message and mutate nothing, for every current date —
including in leap years — because `strptime("%d/%m")` validates the token
in its default year 1900, which is not a leap year (February has 28
days there). -/
theorem claim10_feb29_rejected (r : RestaurantStatus) (st : Stats)
    (conv : Nat) (today : Date) (now : String) :
    handle_owner_command r st conv today now ("COMPLET 29/02")
      = (r, st, some ("❌ Format de date non reconnu. Utilisez : COMPLET 28/02"))
    ∧ handle_owner_command r st conv today now ("FERMÉ 29/02")
      = (r, st, some ("❌ Format non reconnu. Utilisez : FERMÉ 01/03"))
    ∧ parseDDMM ("29/02") = none
    ∧ isLeap 1900 = false
    ∧ daysInMonth 1900 2 = 28 := by
  exact ⟨rfl, rfl, rfl, rfl, rfl⟩

set_option maxHeartbeats 1000000 in
/-- C4 Single-date resolution under the current year: for every owner
message routed to a single-date directive (`COMPLET <d>` or `FERMÉ <d>`)
whose `DD/MM` token parses as `(day, month)`, the registered date is
built with year exactly `today.year` — never rolled to the next year,
with no hypothesis relating the token to today, so also when the
resulting date is already past — the reply echoes the date formatted
`DD/MM/YYYY` under that year, and `status` is unchanged; concretely, with
current year 2026, `COMPLET 28/02` replies with a message containing
`28/02/2026`, inserts `(2026-02-28, "journée")` into `fullDates` without
changing `status`, and a subsequent projection with today = 2026-02-28
reports the restaurant full that day with period `journée`. -/
theorem claim4_full_on_date (r : RestaurantStatus) (st : Stats) (conv : Nat)
    (today : Date) (now : String) :
    (∀ message (dm : Nat × Nat),
      strStarts (pyUpper (pyStrip message)) ("COMPLET ") = true →
      pyUpper (pyStrip message) ≠ "COMPLET CE SOIR" →
      pyUpper (pyStrip message) ≠ "COMPLET SOIR" →
      pyUpper (pyStrip message) ≠ "COMPLET MIDI" →
      pyUpper (pyStrip message) ≠ "COMPLET CE MIDI" →
      parseDDMM (pyStrip (pyReplace (pyUpper (pyStrip message))
        ("COMPLET ") (""))) = some dm →
      handle_owner_command r st conv today now message
        = ({ r with
             full_dates := dictInsert r.full_dates
               (Date.toIso ⟨today.year, dm.2, dm.1⟩) ("journée"),
             updated_at := now }, st,
           some ("🔴 Noté : complet le "
             ++ Date.frDate ⟨today.year, dm.2, dm.1⟩ ++ "."))
        ∧ (handle_owner_command r st conv today now message).1.status
            = r.status)
    ∧ (∀ message (dm : Nat × Nat),
      (strStarts (pyUpper (pyStrip message)) ("FERMÉ ") = true ∨
        strStarts (pyUpper (pyStrip message)) ("FERME ") = true) →
      pyUpper (pyStrip message) ≠ "FERMÉ AUJOURD\x27HUI" →
      pyUpper (pyStrip message) ≠ "FERME AUJOURD\x27HUI" →
      pyUpper (pyStrip message) ≠ "FERMÉ" →
      pyUpper (pyStrip message) ≠ "FERME" →
      pyUpper (pyStrip message) ≠ "CLOSED TODAY" →
      containsSub (pyStrip (pyReplace (pyReplace (pyUpper (pyStrip message))
        ("FERMÉ ") ("")) ("FERME ") (""))) ("AU") = false →
      parseDDMM (pyStrip (pyReplace (pyReplace (pyUpper (pyStrip message))
        ("FERMÉ ") ("")) ("FERME ") (""))) = some dm →
      handle_owner_command r st conv today now message
        = ({ r with
             closed_dates := r.closed_dates ++
               [Date.toIso ⟨today.year, dm.2, dm.1⟩],
             updated_at := now }, st,
           some ("🟡 Fermeture enregistrée le "
             ++ Date.frDate ⟨today.year, dm.2, dm.1⟩ ++ "."))
        ∧ (handle_owner_command r st conv today now message).1.status
            = r.status)
    ∧ (today.year = 2026 →
      handle_owner_command r st conv today now ("COMPLET 28/02")
        = ({ r with
             full_dates := dictInsert r.full_dates ("2026-02-28") ("journée"),
             updated_at := now }, st,
           some ("🔴 Noté : complet le 28/02/2026."))
      ∧ (handle_owner_command r st conv today now ("COMPLET 28/02")).1.status
          = r.status
      ∧ (∃ pre suf : String,
          "🔴 Noté : complet le 28/02/2026." = pre ++ "28/02/2026" ++ suf)
      ∧ statusOverwrite
          (handle_owner_command r st conv today now ("COMPLET 28/02")).1
          ("2026-02-28")
        = fullTodayCtx ("journée")) := by
  refine ⟨?_, ?_, ?_⟩
  · intro message dm h h1 h2 h3 h4 hp
    have he : handle_owner_command r st conv today now message
        = ({ r with
             full_dates := dictInsert r.full_dates
               (Date.toIso ⟨today.year, dm.2, dm.1⟩) ("journée"),
             updated_at := now }, st,
           some ("🔴 Noté : complet le "
             ++ Date.frDate ⟨today.year, dm.2, dm.1⟩ ++ ".")) := by
      rw [dispatch_complet_date r st conv today now message h h1 h2 h3 h4]
      unfold completDateBranch
      rw [hp]
    exact ⟨he, by rw [he]⟩
  · intro message dm h h1 h2 h3 h4 h5 hAU hp
    have he : handle_owner_command r st conv today now message
        = ({ r with
             closed_dates := r.closed_dates ++
               [Date.toIso ⟨today.year, dm.2, dm.1⟩],
             updated_at := now }, st,
           some ("🟡 Fermeture enregistrée le "
             ++ Date.frDate ⟨today.year, dm.2, dm.1⟩ ++ ".")) := by
      rw [dispatch_ferme_date r st conv today now message h h1 h2 h3 h4 h5]
      unfold fermeDatesBranch
      rw [hAU, hp]
      rfl
    exact ⟨he, by rw [he]⟩
  · intro hy
    obtain ⟨y, m, dd⟩ := today
    change y = 2026 at hy
    subst hy
    have hd : handle_owner_command r st conv ⟨2026, m, dd⟩ now
        ("COMPLET 28/02")
        = completDateBranch r st ⟨2026, m, dd⟩ now ("28/02") := rfl
    have h1 : handle_owner_command r st conv ⟨2026, m, dd⟩ now
        ("COMPLET 28/02")
        = ({ r with
             full_dates := dictInsert r.full_dates ("2026-02-28") ("journée"),
             updated_at := now }, st,
           some ("🔴 Noté : complet le 28/02/2026.")) := by
      rw [hd]
      unfold completDateBranch
      rw [show parseDDMM ("28/02") = some (28, 2) from rfl]
      show ({ r with
              full_dates := dictInsert r.full_dates (Date.toIso ⟨2026, 2, 28⟩)
                ("journée"),
              updated_at := now }, st,
            some ("🔴 Noté : complet le " ++ Date.frDate ⟨2026, 2, 28⟩
              ++ ".")) = _
      rw [show Date.toIso ⟨2026, 2, 28⟩ = "2026-02-28" from rfl,
        show ("🔴 Noté : complet le " ++ Date.frDate ⟨2026, 2, 28⟩ ++ ".")
          = "🔴 Noté : complet le 28/02/2026." from rfl]
    refine ⟨h1, by rw [h1], ⟨"🔴 Noté : complet le ", ".", by decide⟩, ?_⟩
    rw [h1]
    unfold statusOverwrite
    rw [dictLookup_dictInsert]

/-- Witness for C4: both single-date directives at the concrete token
05/01 with today = 2026-02-24 (so the resolved date 2026-01-05 is already
past, not rolled to 2027), plus the concrete 28/02 scenario. -/
theorem claim4_full_on_date_witness :
    handle_owner_command initStatus initStats 0 ⟨2026, 2, 24⟩ "t1"
        ("COMPLET 05/01")
      = ({ initStatus with
           full_dates := dictInsert initStatus.full_dates
             (Date.toIso ⟨2026, 1, 5⟩) ("journée"),
           updated_at := "t1" }, initStats,
         some ("🔴 Noté : complet le " ++ Date.frDate ⟨2026, 1, 5⟩ ++ "."))
    ∧ handle_owner_command initStatus initStats 0 ⟨2026, 2, 24⟩ "t1"
        ("FERMÉ 05/01")
      = ({ initStatus with
           closed_dates := initStatus.closed_dates ++
             [Date.toIso ⟨2026, 1, 5⟩],
           updated_at := "t1" }, initStats,
         some ("🟡 Fermeture enregistrée le " ++ Date.frDate ⟨2026, 1, 5⟩
           ++ "."))
    ∧ handle_owner_command initStatus initStats 0 ⟨2026, 2, 24⟩ "t1"
        ("COMPLET 28/02")
      = ({ initStatus with
           full_dates := dictInsert initStatus.full_dates ("2026-02-28")
             ("journée"),
           updated_at := "t1" }, initStats,
         some ("🔴 Noté : complet le 28/02/2026.")) := by
  obtain ⟨c1, c2, c3⟩ :=
    claim4_full_on_date initStatus initStats 0 ⟨2026, 2, 24⟩ "t1"
  refine ⟨?_, ?_, (c3 rfl).1⟩
  · exact (c1 ("COMPLET 05/01") (5, 1) (by decide) (by decide) (by decide)
      (by decide) (by decide) (by decide)).1
  · exact (c2 ("FERMÉ 05/01") (5, 1) (Or.inl (by decide)) (by decide)
      (by decide) (by decide) (by decide) (by decide) (by decide)
      (by decide)).1

/-- C8 Projector additivity: with a non-empty `tempMessage`, status Open
and today in neither `closedDates` nor `fullDates`, no overwrite message
is produced, yet the constraint block still contains the temp-message
directive (appended after the future-closures note). -/
theorem claim8_temp_message_additive (r : RestaurantStatus) (t : String)
    (hs : r.status = "open") (hc : t ∉ r.closed_dates)
    (hf : dictLookup r.full_dates t = none) (hm : r.temp_message ≠ "") :
    statusOverwrite r t = ""
    ∧ constraintBlock r t
        = futureNote r t ++ "\n" ++ tempDirective r.temp_message
    ∧ ∃ pre, constraintBlock r t = pre ++ tempDirective r.temp_message := by
  have h1 : statusOverwrite r t = "" := by
    simp [statusOverwrite, hs, hc, hf]
  have h2 : tempBlock r = tempDirective r.temp_message := by
    unfold tempBlock
    rw [if_pos (by simpa using hm)]
  have h3 : constraintBlock r t
      = futureNote r t ++ "\n" ++ tempDirective r.temp_message := by
    unfold constraintBlock statusContext
    rw [h1, h2, str_empty_append]
  exact ⟨h1, h3, ⟨futureNote r t ++ "\n", h3⟩⟩

/-- Witness for C8 at a concrete record. -/
theorem claim8_temp_message_additive_witness :
    constraintBlock ⟨"open", "", ["2026-03-01"], [], "Menu truffe ce soir", ""⟩
        ("2026-02-24")
      = futureNote ⟨"open", "", ["2026-03-01"], [], "Menu truffe ce soir", ""⟩
          ("2026-02-24")
        ++ "\n" ++ tempDirective ("Menu truffe ce soir") :=
  (claim8_temp_message_additive
    ⟨"open", "", ["2026-03-01"], [], "Menu truffe ce soir", ""⟩
    ("2026-02-24") rfl (by simp) rfl (by simp)).2.1

/-- C9 counterexample: with stored `lastReset` 2026-02-23 and current date
2026-02-24, the `STATS` owner command resets `messagesToday` and
`bookingsToday` but leaves `languageCounts` untouched (still
`[("fr", 7)]`), contradicting the claim that all three counters are reset
on every stats access. -/
theorem claim9_counterexample :
    (handle_owner_command initStatus ⟨5, 2, [("fr", 7)], "2026-02-23"⟩ 3
        ⟨2026, 2, 24⟩ "t1" ("STATS")).2.1
      = ⟨0, 0, [("fr", 7)], "2026-02-24"⟩
    ∧ ((handle_owner_command initStatus ⟨5, 2, [("fr", 7)], "2026-02-23"⟩ 3
        ⟨2026, 2, 24⟩ "t1" ("STATS")).2.1).languages ≠ [] := by
  exact ⟨rfl, by decide⟩

/-- C9 amended: on a stale `lastReset`, the `STATS` owner command resets
`messagesToday` and `bookingsToday` and stamps `lastReset` (leaving
`languageCounts` untouched) before reporting, while the message-tracking
path (`track_stats`) resets all three counters — `languageCounts`
included — before incrementing. -/
theorem claim9_lazy_reset_amended (r : RestaurantStatus) (st : Stats)
    (conv : Nat) (today : Date) (now : String) (b : Bool) (lang : String)
    (h : st.last_reset ≠ today.toIso) :
    (handle_owner_command r st conv today now ("STATS")).2.1
        = { st with
            messages_today := 0, bookings_today := 0,
            last_reset := today.toIso }
    ∧ (handle_owner_command r st conv today now ("STATS")).1 = r
    ∧ (handle_owner_command r st conv today now ("STATS")).2.2
        = some (statsReply
            { st with
              messages_today := 0, bookings_today := 0,
              last_reset := today.toIso } conv)
    ∧ track_stats st today b lang
        = { messages_today := 1,
            bookings_today := if b then 1 else 0,
            languages := [(lang, 1)],
            last_reset := today.toIso } := by
  have hb : (st.last_reset != today.toIso) = true := by simpa using h
  have h1 : handle_owner_command r st conv today now ("STATS")
      = (r, { st with
              messages_today := 0, bookings_today := 0,
              last_reset := today.toIso },
         some (statsReply
           { st with
             messages_today := 0, bookings_today := 0,
             last_reset := today.toIso } conv)) := by
    unfold handle_owner_command
    rw [hb]
    rfl
  have h2 : track_stats st today b lang
      = { messages_today := 1,
          bookings_today := if b then 1 else 0,
          languages := [(lang, 1)],
          last_reset := today.toIso } := by
    unfold track_stats
    rw [hb]
    cases b <;> rfl
  exact ⟨by rw [h1], by rw [h1], by rw [h1], h2⟩

/-- Witness for C9's amended statement at a concrete input. -/
theorem claim9_lazy_reset_witness :
    (handle_owner_command initStatus ⟨5, 2, [("fr", 7)], "2026-02-23"⟩ 3
        ⟨2026, 2, 24⟩ "t1" ("STATS")).2.1
      = { messages_today := 0, bookings_today := 0,
          languages := [("fr", 7)], last_reset := "2026-02-24" }
    ∧ track_stats ⟨5, 2, [("fr", 7)], "2026-02-23"⟩ ⟨2026, 2, 24⟩ true ("en")
      = { messages_today := 1, bookings_today := 1,
          languages := [("en", 1)], last_reset := "2026-02-24" } := by
  have h := claim9_lazy_reset_amended initStatus
    ⟨5, 2, [("fr", 7)], "2026-02-23"⟩ 3 ⟨2026, 2, 24⟩ "t1" true ("en")
    (by decide)
  exact ⟨h.1, h.2.2.2⟩

/-- C7 Invalid dates: an owner message routed to one of the three
parameterized date commands (`COMPLET <d>`, `FERMÉ <d>`,
`FERMÉ DU <d> AU <d>`) whose date token does not parse as `DD/MM` gets the
literal corrective message naming the expected format, and the
availability record — status, closedDates, fullDates, tempMessage and
updatedAt — is returned entirely unchanged (the embedding is total: the
`ValueError` of `strptime` is the parser's `none`, caught in the source by
the surrounding `except`).  The range command appends no dates even when
only the second token is unparsable. -/
theorem claim7_invalid_date (r : RestaurantStatus) (st : Stats) (conv : Nat)
    (today : Date) (now : String) :
    (∀ message,
      strStarts (pyUpper (pyStrip message)) ("COMPLET ") = true →
      pyUpper (pyStrip message) ≠ "COMPLET CE SOIR" →
      pyUpper (pyStrip message) ≠ "COMPLET SOIR" →
      pyUpper (pyStrip message) ≠ "COMPLET MIDI" →
      pyUpper (pyStrip message) ≠ "COMPLET CE MIDI" →
      parseDDMM (pyStrip (pyReplace (pyUpper (pyStrip message))
        ("COMPLET ") (""))) = none →
      handle_owner_command r st conv today now message
        = (r, st, some ("❌ Format de date non reconnu. Utilisez : COMPLET 28/02")))
    ∧ (∀ message,
      (strStarts (pyUpper (pyStrip message)) ("FERMÉ ") = true ∨
        strStarts (pyUpper (pyStrip message)) ("FERME ") = true) →
      pyUpper (pyStrip message) ≠ "FERMÉ AUJOURD\x27HUI" →
      pyUpper (pyStrip message) ≠ "FERME AUJOURD\x27HUI" →
      pyUpper (pyStrip message) ≠ "FERMÉ" →
      pyUpper (pyStrip message) ≠ "FERME" →
      pyUpper (pyStrip message) ≠ "CLOSED TODAY" →
      containsSub (pyStrip (pyReplace (pyReplace (pyUpper (pyStrip message))
        ("FERMÉ ") ("")) ("FERME ") (""))) ("AU") = false →
      parseDDMM (pyStrip (pyReplace (pyReplace (pyUpper (pyStrip message))
        ("FERMÉ ") ("")) ("FERME ") (""))) = none →
      handle_owner_command r st conv today now message
        = (r, st, some ("❌ Format non reconnu. Utilisez : FERMÉ 01/03")))
    ∧ (∀ message,
      (strStarts (pyUpper (pyStrip message)) ("FERMÉ ") = true ∨
        strStarts (pyUpper (pyStrip message)) ("FERME ") = true) →
      pyUpper (pyStrip message) ≠ "FERMÉ AUJOURD\x27HUI" →
      pyUpper (pyStrip message) ≠ "FERME AUJOURD\x27HUI" →
      pyUpper (pyStrip message) ≠ "FERMÉ" →
      pyUpper (pyStrip message) ≠ "FERME" →
      pyUpper (pyStrip message) ≠ "CLOSED TODAY" →
      containsSub (pyStrip (pyReplace (pyReplace (pyUpper (pyStrip message))
        ("FERMÉ ") ("")) ("FERME ") (""))) ("AU") = true →
      (parseDDMM (pyStrip (pyReplace
          ((pySplit (pyStrip (pyReplace (pyReplace (pyUpper (pyStrip message))
            ("FERMÉ ") ("")) ("FERME ") (""))) ("AU")).getD 0 (""))
          ("DU") (""))) = none ∨
        parseDDMM (pyStrip
          ((pySplit (pyStrip (pyReplace (pyReplace (pyUpper (pyStrip message))
            ("FERMÉ ") ("")) ("FERME ") (""))) ("AU")).getD 1 (""))) = none) →
      handle_owner_command r st conv today now message
        = (r, st, some ("❌ Format non reconnu. Utilisez : FERMÉ DU 01/03 AU 15/03"))) := by
  refine ⟨?_, ?_, ?_⟩
  · intro message h h1 h2 h3 h4 hp
    rw [dispatch_complet_date r st conv today now message h h1 h2 h3 h4]
    unfold completDateBranch
    rw [hp]
  · intro message h h1 h2 h3 h4 h5 hAU hp
    rw [dispatch_ferme_date r st conv today now message h h1 h2 h3 h4 h5]
    unfold fermeDatesBranch
    rw [hAU, hp]
    rfl
  · intro message h h1 h2 h3 h4 h5 hAU hp
    rw [dispatch_ferme_date r st conv today now message h h1 h2 h3 h4 h5]
    unfold fermeDatesBranch
    rw [hAU]
    rcases hp with hp | hp
    · rw [hp]
      rfl
    · cases hA : parseDDMM (pyStrip (pyReplace
          ((pySplit (pyStrip (pyReplace (pyReplace (pyUpper (pyStrip message))
            ("FERMÉ ") ("")) ("FERME ") (""))) ("AU")).getD 0 (""))
          ("DU") ("")))
      · rfl
      · rw [hp]
        rfl

/-- Witness for C7 at three concrete malformed commands. -/
theorem claim7_invalid_date_witness :
    handle_owner_command initStatus initStats 0 ⟨2026, 2, 24⟩ "t1"
        ("COMPLET 99/99")
      = (initStatus, initStats,
         some ("❌ Format de date non reconnu. Utilisez : COMPLET 28/02"))
    ∧ handle_owner_command initStatus initStats 0 ⟨2026, 2, 24⟩ "t1"
        ("FERMÉ 9/13")
      = (initStatus, initStats,
         some ("❌ Format non reconnu. Utilisez : FERMÉ 01/03"))
    ∧ handle_owner_command initStatus initStats 0 ⟨2026, 2, 24⟩ "t1"
        ("FERMÉ DU 01/03 AU 15/15")
      = (initStatus, initStats,
         some ("❌ Format non reconnu. Utilisez : FERMÉ DU 01/03 AU 15/03")) := by
  obtain ⟨c1, c2, c3⟩ :=
    claim7_invalid_date initStatus initStats 0 ⟨2026, 2, 24⟩ "t1"
  refine ⟨c1 _ (by decide) (by decide) (by decide) (by decide) (by decide)
      (by decide), ?_, ?_⟩
  · exact c2 _ (Or.inl (by decide)) (by decide) (by decide) (by decide)
      (by decide) (by decide) (by decide) (by decide)
  · exact c3 _ (Or.inl (by decide)) (by decide) (by decide) (by decide)
      (by decide) (by decide) (by decide) (Or.inr (by decide))

set_option maxHeartbeats 1000000 in
/-- C5 Closed ranges: a `FERMÉ DU <d> AU <d>` command whose two tokens
parse appends to `closedDates` exactly one entry per day from start to end
inclusive (membership characterization plus no duplicates), returns the
success reply; when start > end it appends nothing while still returning
the success reply; concretely, `FERMÉ DU 01/03 AU 03/03` in year Y appends
exactly Y-03-01, Y-03-02, Y-03-03. -/
theorem claim5_closed_range (r : RestaurantStatus) (st : Stats) (conv : Nat)
    (today : Date) (now : String) (message : String) (sdm edm : Nat × Nat)
    (h : strStarts (pyUpper (pyStrip message)) ("FERMÉ ") = true ∨
      strStarts (pyUpper (pyStrip message)) ("FERME ") = true)
    (h1 : pyUpper (pyStrip message) ≠ "FERMÉ AUJOURD\x27HUI")
    (h2 : pyUpper (pyStrip message) ≠ "FERME AUJOURD\x27HUI")
    (h3 : pyUpper (pyStrip message) ≠ "FERMÉ")
    (h4 : pyUpper (pyStrip message) ≠ "FERME")
    (h5 : pyUpper (pyStrip message) ≠ "CLOSED TODAY")
    (hAU : containsSub (pyStrip (pyReplace (pyReplace (pyUpper (pyStrip message))
      ("FERMÉ ") ("")) ("FERME ") (""))) ("AU") = true)
    (hp0 : parseDDMM (pyStrip (pyReplace
      ((pySplit (pyStrip (pyReplace (pyReplace (pyUpper (pyStrip message))
        ("FERMÉ ") ("")) ("FERME ") (""))) ("AU")).getD 0 (""))
      ("DU") (""))) = some sdm)
    (hp1 : parseDDMM (pyStrip
      ((pySplit (pyStrip (pyReplace (pyReplace (pyUpper (pyStrip message))
        ("FERMÉ ") ("")) ("FERME ") (""))) ("AU")).getD 1 (""))) = some edm) :
    handle_owner_command r st conv today now message
      = ({ r with
           closed_dates := r.closed_dates ++
             (rangeDays ⟨today.year, sdm.2, sdm.1⟩
               ⟨today.year, edm.2, edm.1⟩).map Date.toIso,
           updated_at := now }, st,
         some ("🟡 Fermeture enregistrée du "
           ++ Date.frShort ⟨today.year, sdm.2, sdm.1⟩ ++ " au "
           ++ Date.frShort ⟨today.year, edm.2, edm.1⟩ ++ "."))
    ∧ (∀ d : Date,
        d ∈ rangeDays ⟨today.year, sdm.2, sdm.1⟩ ⟨today.year, edm.2, edm.1⟩
        ↔ (d.Valid ∧ dateLE ⟨today.year, sdm.2, sdm.1⟩ d
            ∧ dateLE d ⟨today.year, edm.2, edm.1⟩))
    ∧ (rangeDays ⟨today.year, sdm.2, sdm.1⟩ ⟨today.year, edm.2, edm.1⟩).Nodup
    ∧ (¬ dateLE ⟨today.year, sdm.2, sdm.1⟩ ⟨today.year, edm.2, edm.1⟩ →
        rangeDays ⟨today.year, sdm.2, sdm.1⟩ ⟨today.year, edm.2, edm.1⟩ = []
        ∧ (handle_owner_command r st conv today now message).1.closed_dates
            = r.closed_dates)
    ∧ (handle_owner_command r st conv today now
        ("FERMÉ DU 01/03 AU 03/03")).1.closed_dates
      = r.closed_dates ++ [Date.toIso ⟨today.year, 3, 1⟩,
          Date.toIso ⟨today.year, 3, 2⟩, Date.toIso ⟨today.year, 3, 3⟩] := by
  have hvs := parseDDMM_valid hp0 today.year
  have hve := parseDDMM_valid hp1 today.year
  have hmain : handle_owner_command r st conv today now message
      = ({ r with
           closed_dates := r.closed_dates ++
             (rangeDays ⟨today.year, sdm.2, sdm.1⟩
               ⟨today.year, edm.2, edm.1⟩).map Date.toIso,
           updated_at := now }, st,
         some ("🟡 Fermeture enregistrée du "
           ++ Date.frShort ⟨today.year, sdm.2, sdm.1⟩ ++ " au "
           ++ Date.frShort ⟨today.year, edm.2, edm.1⟩ ++ ".")) := by
    rw [dispatch_ferme_date r st conv today now message h h1 h2 h3 h4 h5]
    unfold fermeDatesBranch
    rw [hAU, hp0, hp1]
    rfl
  have hconc : (handle_owner_command r st conv today now
      ("FERMÉ DU 01/03 AU 03/03")).1.closed_dates
      = r.closed_dates ++
        (rangeDays ⟨today.year, 3, 1⟩ ⟨today.year, 3, 3⟩).map Date.toIso := rfl
  refine ⟨hmain, fun d => rangeDays_mem hvs hve d, rangeDays_nodup _ _,
    fun hne => ⟨rangeDays_empty hne, ?_⟩, ?_⟩
  · rw [hmain]
    show r.closed_dates ++
      (rangeDays ⟨today.year, sdm.2, sdm.1⟩
        ⟨today.year, edm.2, edm.1⟩).map Date.toIso = r.closed_dates
    rw [rangeDays_empty hne]
    simp
  · rw [hconc, rangeDays_march]
    rfl

/-- Witness for C5 at a concrete reversed range (start > end): nothing is
appended and the reply is still the success message. -/
theorem claim5_closed_range_witness :
    rangeDays ⟨2026, 4, 5⟩ ⟨2026, 4, 2⟩ = []
    ∧ (handle_owner_command initStatus initStats 0 ⟨2026, 1, 10⟩ "t1"
        ("FERMÉ DU 05/04 AU 02/04")).1.closed_dates
      = initStatus.closed_dates := by
  have h := claim5_closed_range initStatus initStats 0 ⟨2026, 1, 10⟩ "t1"
    ("FERMÉ DU 05/04 AU 02/04") (5, 4) (2, 4) (Or.inl (by decide))
    (by decide) (by decide) (by decide) (by decide) (by decide) (by decide)
    (by decide) (by decide)
  have h4 := h.2.2.2.1 (by decide)
  exact ⟨h4.1, h4.2⟩

end RestoBot
